import Mathlib

/-
Verification of the Browser-Automation-Launcher session manager
(src/src/workers/browser_launcher.py and src/src/main.py).

The Python code is shallowly embedded: the mutable `BrowserLauncher`
attributes (`_port_state`, `_worker_to_port`, `_used_ports`, `sessions`,
`terminated_sessions`) become fields of explicit state records, dictionaries
become association lists, `time.time()` / datetimes become `Int` seconds,
and calls whose outcome depends on the outside world (socket probes, process
polls, DevTools activity, kill results, SQS transport) are parametrised by
oracle arguments.  Every definition mirrors the branch structure of the
corresponding Python function.
-/

namespace BAL

/-! ## Association-list maps (Python dicts) -/

def lookupKey {α β : Type} [DecidableEq α] (k : α) : List (α × β) → Option β
  | [] => none
  | (k', v) :: rest => if k' = k then some v else lookupKey k rest

/-- `d.pop(k, None)` / `del d[k]`: remove every binding of key `k`. -/
def eraseKey {α β : Type} [DecidableEq α] (k : α) (l : List (α × β)) : List (α × β) :=
  l.filter (fun e => !(decide (e.1 = k)))

/-- `d[k] = v`: bind `k` to `v`, dropping any previous binding. -/
def insertKey {α β : Type} [DecidableEq α] (k : α) (v : β) (l : List (α × β)) : List (α × β) :=
  (k, v) :: eraseKey k l

theorem filter_idem {α : Type} (f : α → Bool) (l : List α) :
    (l.filter f).filter f = l.filter f := by
  induction l with
  | nil => rfl
  | cons a rest ih =>
    by_cases h : f a = true
    · simp [List.filter_cons, h, ih]
    · simp only [Bool.not_eq_true] at h
      simp [List.filter_cons, h, ih]

theorem filter_of_all {α : Type} (f : α → Bool) (l : List α)
    (h : l.all f = true) : l.filter f = l := by
  induction l with
  | nil => rfl
  | cons a rest ih =>
    simp only [List.all_cons, Bool.and_eq_true] at h
    simp [List.filter_cons, h.1, ih h.2]

theorem eraseKey_idem {α β : Type} [DecidableEq α] (k : α) (l : List (α × β)) :
    eraseKey k (eraseKey k l) = eraseKey k l := by
  simp [eraseKey, filter_idem]

theorem lookupKey_eraseKey {α β : Type} [DecidableEq α] (k : α) (l : List (α × β)) :
    lookupKey k (eraseKey k l) = none := by
  induction l with
  | nil => rfl
  | cons a rest ih =>
    by_cases h : a.1 = k
    · simp [eraseKey, List.filter_cons, h] at ih ⊢
      exact ih
    · simp [eraseKey, List.filter_cons, h] at ih ⊢
      simp [lookupKey, h, ih]

theorem eraseKey_of_lookup_none {α β : Type} [DecidableEq α] (k : α) (l : List (α × β))
    (h : lookupKey k l = none) : eraseKey k l = l := by
  induction l with
  | nil => rfl
  | cons a rest ih =>
    rcases a with ⟨k', v⟩
    by_cases hk : k' = k
    · simp [lookupKey, hk] at h
    · simp [lookupKey, hk] at h
      simp [eraseKey, List.filter_cons, hk] at ih ⊢
      exact ih h

theorem lookupKey_filter_val {α β : Type} [DecidableEq α] (p : β → Bool)
    (k : α) (l : List (α × β)) (v : β)
    (h : lookupKey k (l.filter (fun e => p e.2)) = some v) : p v = true := by
  induction l with
  | nil => simp [lookupKey] at h
  | cons a rest ih =>
    by_cases hp : p a.2 = true
    · simp only [List.filter_cons, hp, if_true] at h
      by_cases hk : a.1 = k
      · simp [lookupKey, hk] at h
        rw [← h]; exact hp
      · simp [lookupKey, hk] at h
        exact ih h
    · simp only [List.filter_cons, hp, if_false] at h
      exact ih h

/-! ## Port registry (`_port_state`, `_worker_to_port`, `_used_ports`)

`_port_state` maps a port to `(state, worker_id, timestamp)` with
`state ∈ ("RESERVED", "ACTIVE", "FREE")`; the code only ever stores
RESERVED and ACTIVE, absence meaning FREE, but the FREE constructor is kept
because `_reserve_port_for_worker` explicitly tests `st[0] == "FREE"`. -/

inductive PortSt : Type
  | reserved
  | active
  | free
deriving DecidableEq, Repr

structure PortEntry : Type where
  st : PortSt
  worker : String
  ts : Int
deriving DecidableEq, Repr

structure Registry : Type where
  used_ports : List Nat
  port_state : List (Nat × PortEntry)
  worker_to_port : List (String × Nat)
deriving DecidableEq, Repr

/-- `_release_port`: guard `if not port: return`, then clear the legacy
`_used_ports` set, pop the port-state entry, and drop every
`worker_id → port` binding pointing at this port. -/
def release_port (port : Nat) (r : Registry) : Registry :=
  if port = 0 then r
  else
    { used_ports := r.used_ports.filter (fun q => !(decide (q = port)))
      port_state := eraseKey port r.port_state
      worker_to_port := r.worker_to_port.filter (fun e => !(decide (e.2 = port))) }

/-- The stale-reservation sweep at the top of `_reserve_port_for_worker`:
drop every entry that is RESERVED and older than `_reservation_timeout`
(90 seconds). -/
def expire_stale (now : Int) (ps : List (Nat × PortEntry)) : List (Nat × PortEntry) :=
  ps.filter (fun e => !(decide (e.2.st = PortSt.reserved ∧ 90 < now - e.2.ts)))

/-- Candidate test in the reservation loop:
`st is None or st[0] == "FREE"`. -/
def port_candidate (ps : List (Nat × PortEntry)) (p : Nat) : Bool :=
  match lookupKey p ps with
  | none => true
  | some e => decide (e.st = PortSt.free)

/-- The `for port in all_ports` loop body of `_reserve_port_for_worker`:
return the first shuffled candidate that also passes the socket probe
(`_check_port_free`, an OS call, modelled by the oracle `probe`). -/
def reserve_scan (probe : Nat → Bool) (ps : List (Nat × PortEntry)) :
    List Nat → Option Nat
  | [] => none
  | p :: rest =>
    if port_candidate ps p && probe p then some p else reserve_scan probe ps rest

/-- `_reserve_port_for_worker`: expire stale RESERVED entries, scan the
shuffled permutation `perm` of the port range, and either record
`(RESERVED, worker_id, now)` for the first free port (also updating
`_worker_to_port`) or raise `RuntimeError` (modelled as `none`).  Either
way the expiry sweep has already mutated `_port_state`. -/
def reserve_port_for_worker (r : Registry) (wid : String) (now : Int)
    (perm : List Nat) (probe : Nat → Bool) : Option Nat × Registry :=
  let ps := expire_stale now r.port_state
  match reserve_scan probe ps perm with
  | some p =>
    (some p,
      { r with
          port_state := insertKey p ⟨PortSt.reserved, wid, now⟩ ps
          worker_to_port := insertKey wid p r.worker_to_port })
  | none => (none, { r with port_state := ps })

/-- `_activate_reserved_port`: RESERVED by the same worker → ACTIVE;
already ACTIVE by the same worker → no-op; anything else is logged and
left unchanged. -/
def activate_reserved_port (wid : String) (port : Nat) (now : Int) (r : Registry) :
    Registry :=
  match lookupKey port r.port_state with
  | some e =>
    if e.st = PortSt.reserved ∧ e.worker = wid then
      { r with port_state := insertKey port ⟨PortSt.active, wid, now⟩ r.port_state }
    else r
  | none => r

/-- `_rollback_reserved_port`: pop the entry only when it is RESERVED by
this worker; in every case drop this worker's `_worker_to_port` binding. -/
def rollback_reserved_port (wid : String) (port : Nat) (r : Registry) : Registry :=
  match lookupKey port r.port_state with
  | some e =>
    if e.st = PortSt.reserved ∧ e.worker = wid then
      { r with
          port_state := eraseKey port r.port_state
          worker_to_port := eraseKey wid r.worker_to_port }
    else { r with worker_to_port := eraseKey wid r.worker_to_port }
  | none => { r with worker_to_port := eraseKey wid r.worker_to_port }

/-- A port is completely untracked by the registry: no state entry, not in
the legacy `_used_ports` set, and no worker maps to it. -/
def port_untracked (p : Nat) (r : Registry) : Prop :=
  lookupKey p r.port_state = none
  ∧ r.used_ports.all (fun q => !(decide (q = p))) = true
  ∧ r.worker_to_port.all (fun e => !(decide (e.2 = p))) = true

/-- Claim C9: `_release_port` is idempotent — applying it twice to any
registry state yields the same port-state map, worker index and used-port
set as applying it once — and releasing a port the registry does not track
leaves the registry exactly as it was. -/
theorem release_port_idempotent (p : Nat) (r : Registry) :
    release_port p (release_port p r) = release_port p r
    ∧ (port_untracked p r → release_port p r = r) := by
  constructor
  · by_cases hp : p = 0
    · simp [release_port, hp]
    · simp [release_port, hp, filter_idem, eraseKey_idem]
  · rintro ⟨h1, h2, h3⟩
    by_cases hp : p = 0
    · simp [release_port, hp]
    · simp only [release_port, hp, if_false]
      rw [filter_of_all _ _ h2, eraseKey_of_lookup_none p _ h1,
        filter_of_all _ _ h3]

def registry_w1 : Registry :=
  { used_ports := [9222]
    port_state := [(9222, ⟨PortSt.active, "wa", 10⟩)]
    worker_to_port := [("wa", 9222)] }

def registry_w2 : Registry :=
  { used_ports := [9300]
    port_state := [(9300, ⟨PortSt.reserved, "wb", 5⟩)]
    worker_to_port := [("wb", 9300)] }

theorem release_port_idempotent_witness :
    release_port 9222 (release_port 9222 registry_w1) = release_port 9222 registry_w1
    ∧ release_port 9222 registry_w2 = registry_w2 :=
  ⟨(release_port_idempotent 9222 registry_w1).1,
   (release_port_idempotent 9222 registry_w2).2
     (by unfold port_untracked; exact ⟨by decide, by decide, by decide⟩)⟩

/-! ## Session TTL (`launch_browser_session`, lines 927–952) -/

/-- The TTL cap in `launch_browser_session`:
`if ttl_minutes > settings.hard_ttl_minutes: ttl_minutes = settings.hard_ttl_minutes`. -/
def effective_ttl_minutes (requested hard_ttl : Int) : Int :=
  if requested > hard_ttl then hard_ttl else requested

/-- `expires_at = datetime.now(UTC) + timedelta(minutes=ttl_minutes)`, with
times in seconds since an arbitrary epoch and the creation instant taken as
`created_at`. -/
def session_expires_at (created_at requested hard_ttl : Int) : Int :=
  created_at + 60 * effective_ttl_minutes requested hard_ttl

/-- Claim C6: for every session created by a successful launch,
`expires_at - created_at ≤ hard_ttl`; when the requested `ttl_minutes`
exceeds `hard_ttl_minutes` the expiry is creation time plus
`hard_ttl_minutes`, otherwise creation time plus the requested TTL. -/
theorem session_ttl_capped (created_at requested hard_ttl : Int) :
    session_expires_at created_at requested hard_ttl - created_at ≤ 60 * hard_ttl
    ∧ (requested > hard_ttl →
        session_expires_at created_at requested hard_ttl = created_at + 60 * hard_ttl)
    ∧ (¬ requested > hard_ttl →
        session_expires_at created_at requested hard_ttl = created_at + 60 * requested) := by
  refine ⟨?_, ?_, ?_⟩
  · unfold session_expires_at effective_ttl_minutes
    by_cases h : requested > hard_ttl
    · rw [if_pos h]; omega
    · rw [if_neg h]; omega
  · intro h
    unfold session_expires_at effective_ttl_minutes
    rw [if_pos h]
  · intro h
    unfold session_expires_at effective_ttl_minutes
    rw [if_neg h]

theorem session_ttl_capped_witness :
    session_expires_at 0 10000 120 = 0 + 60 * 120
    ∧ session_expires_at 0 10 120 = 0 + 60 * 10 :=
  ⟨(session_ttl_capped 0 10000 120).2.1 (by decide),
   (session_ttl_capped 0 10 120).2.2 (by decide)⟩

/-! ## Claim C3: behaviour of `_reserve_port_for_worker` -/

theorem reserve_scan_eq_find (probe : Nat → Bool) (ps : List (Nat × PortEntry))
    (perm : List Nat) :
    reserve_scan probe ps perm = perm.find? (fun q => port_candidate ps q && probe q) := by
  induction perm with
  | nil => rfl
  | cons p rest ih =>
    simp only [reserve_scan, List.find?]
    by_cases h : (port_candidate ps p && probe p) = true
    · simp [h]
    · simp only [Bool.not_eq_true] at h
      simp [h, ih]

/-- Claim C3 (amended): a reservation call first removes every RESERVED
entry older than 90 seconds, then walks the shuffled permutation of
`[port_start, port_end]`; the first port that is untracked or FREE and
passes the socket probe is recorded as `(RESERVED, worker_id, now)` (with
the worker index updated) and returned; if no such port exists the call
fails and leaves the registry in its post-expiry state — the stale
RESERVED entries stay removed, so the state is in general NOT the state
the call started from. -/
theorem reserve_port_spec (r : Registry) (wid : String) (now : Int)
    (port_start port_end : Nat) (perm : List Nat) (probe : Nat → Bool)
    (_hperm : List.Perm perm (List.range' port_start (port_end + 1 - port_start))) :
    match perm.find? (fun q => port_candidate (expire_stale now r.port_state) q && probe q) with
    | some p =>
        reserve_port_for_worker r wid now perm probe =
          (some p,
            { r with
                port_state :=
                  insertKey p ⟨PortSt.reserved, wid, now⟩ (expire_stale now r.port_state)
                worker_to_port := insertKey wid p r.worker_to_port })
    | none =>
        reserve_port_for_worker r wid now perm probe =
          (none, { r with port_state := expire_stale now r.port_state }) := by
  rcases h : perm.find? (fun q => port_candidate (expire_stale now r.port_state) q && probe q)
    with _ | p <;>
    simp [reserve_port_for_worker, reserve_scan_eq_find, h]

def registry_c3w : Registry :=
  { used_ports := [], port_state := [], worker_to_port := [] }

theorem reserve_port_spec_witness :
    List.Perm [9222] (List.range' 9222 (9222 + 1 - 9222))
    ∧ reserve_port_for_worker registry_c3w "w1" 100 [9222] (fun _ => true) =
        (some 9222,
          { registry_c3w with
              port_state :=
                insertKey 9222 ⟨PortSt.reserved, "w1", 100⟩
                  (expire_stale 100 registry_c3w.port_state)
              worker_to_port := insertKey "w1" 9222 registry_c3w.worker_to_port }) := by
  have hp : List.Perm [9222] (List.range' 9222 (9222 + 1 - 9222)) := List.Perm.refl _
  exact ⟨hp, reserve_port_spec registry_c3w "w1" 100 9222 9222 [9222] (fun _ => true) hp⟩

def registry_c3 : Registry :=
  { used_ports := []
    port_state := [(9222, ⟨PortSt.reserved, "w0", 0⟩)]
    worker_to_port := [("w0", 9222)] }

/-- Claim C3 counterexample: with port range `[9222, 9222]`, a registry
holding a RESERVED entry for port 9222 that is 100 seconds old, and a
socket probe that reports every port as busy, the reservation call fails
with the no-ports-available error, yet the resulting port state is NOT
unchanged: the stale entry has been removed. -/
theorem reserve_failure_mutates_state :
    (reserve_port_for_worker registry_c3 "w1" 100 [9222] (fun _ => false)).1 = none
    ∧ (reserve_port_for_worker registry_c3 "w1" 100 [9222] (fun _ => false)).2 ≠ registry_c3 :=
  ⟨by decide, by decide⟩

/-! ## Session store and termination

`BrowserSession` and `TerminatedSession` are pydantic models
(src/src/queue/models.py).  `TerminatedSession` declares `request_id`,
`machine_ip`, `debug_port` and `process_id` as required non-optional
fields, so constructing one with `None` for any of them raises a
`ValidationError`; `mkTerminatedRec` models that by returning `none`. -/

structure Session : Type where
  worker_id : String
  session_id : String
  request_id : String
  machine_ip : String
  debug_port : Nat
  process_id : Option Int
  created_at : Int
  expires_at : Int
  user_data_dir : String
  has_navigated_away : Bool
deriving DecidableEq, Repr

structure TerminatedRec : Type where
  worker_id : String
  request_id : String
  machine_ip : String
  debug_port : Nat
  process_id : Int
  termination_reason : String
  exit_code : Option Int
deriving DecidableEq, Repr

/-- `TerminatedSession(...)` construction with pydantic validation of the
required fields; `none` models the `ValidationError` raised when a required
field receives `None`. -/
def mkTerminatedRec (worker_id : String) (request_id machine_ip : Option String)
    (debug_port : Option Nat) (process_id : Option Int)
    (reason : String) (exit_code : Option Int) : Option TerminatedRec :=
  match request_id, machine_ip, debug_port, process_id with
  | some rq, some mi, some dp, some pid =>
    some ⟨worker_id, rq, mi, dp, pid, reason, exit_code⟩
  | _, _, _, _ => none

structure LState : Type where
  registry : Registry
  sessions : List (String × Session)
  terminated : List TerminatedRec
deriving DecidableEq, Repr

/-- `self.terminated_sessions = self.terminated_sessions[-50:]`, applied
only when the length exceeds `_max_terminated_history` (50). -/
def trim_history (l : List TerminatedRec) : List TerminatedRec :=
  if l.length > 50 then l.drop (l.length - 50) else l

theorem trim_le (l : List TerminatedRec) (h : l.length ≤ 51) :
    (trim_history l).length ≤ 50 := by
  unfold trim_history
  by_cases hl : l.length > 50
  · simp [hl, List.length_drop]; omega
  · simp [hl]; omega

/-- Net effect of the kill section of `terminate_session` (taskkill /
psutil process-tree kill, with the `finally` block's PID-reuse-guarded
aggressive force kill folded into the resulting flag):
`normal k` — no exception escaped, the process ended up dead iff `k`;
`raisesInTry` — an exception escaped the `try` body before the
`TerminatedSession` record was appended (caught at line 1667). -/
inductive KillOutcome : Type
  | normal (killed : Bool)
  | raisesInTry
deriving DecidableEq, Repr

/-- `terminate_session`: snapshot and delete the session under the lock,
attempt the kill, append a `TerminatedSession` record and trim the ring to
50 (skipped when an exception escaped first, or when the pydantic
construction fails because `process_id` is `None`), and in the `finally`
block always `_release_port(debug_port)`.  Returns the `killed` flag and
the new state. -/
def terminate_session (st : LState) (wid : String) (reason : String)
    (outcome : KillOutcome) : Bool × LState :=
  match lookupKey wid st.sessions with
  | none => (false, st)
  | some s =>
    let kr : Bool × List TerminatedRec :=
      match outcome with
      | KillOutcome.raisesInTry => (false, st.terminated)
      | KillOutcome.normal k =>
        match mkTerminatedRec s.worker_id (some s.request_id) (some s.machine_ip)
            (some s.debug_port) s.process_id reason none with
        | some tr => (k, trim_history (st.terminated ++ [tr]))
        | none => (false, st.terminated)
    (kr.1,
      { registry := release_port s.debug_port st.registry
        sessions := eraseKey wid st.sessions
        terminated := kr.2 })

/-- `_cleanup_terminated_session`: cleanup after externally observed
process death.  In the session-not-found branch the code constructs a
`TerminatedSession` with `request_id=None` (and `machine_ip=None`,
`process_id=None`), which raises a `ValidationError` before the append, so
the state is left untouched (the exception is caught per-session in
`cleanup_expired_sessions`).  In the found branch the record is appended,
the ring trimmed to 50, the session removed and the port released. -/
def cleanup_terminated_session (st : LState) (wid : String) (reason : String)
    (exit_code : Option Int) : LState :=
  match lookupKey wid st.sessions with
  | none =>
    match mkTerminatedRec wid none none (lookupKey wid st.registry.worker_to_port)
        none reason exit_code with
    | some tr =>
      { st with
          terminated := st.terminated ++ [tr]
          registry :=
            match lookupKey wid st.registry.worker_to_port with
            | some p => release_port p st.registry
            | none => st.registry }
    | none => st
  | some s =>
    match mkTerminatedRec s.worker_id (some s.request_id) (some s.machine_ip)
        (some s.debug_port) s.process_id reason exit_code with
    | none => st
    | some tr =>
      { registry := release_port s.debug_port st.registry
        sessions := eraseKey wid st.sessions
        terminated := trim_history (st.terminated ++ [tr]) }

theorem all_of_filter {α : Type} (f : α → Bool) (l : List α) :
    (l.filter f).all f = true := by
  induction l with
  | nil => rfl
  | cons a rest ih =>
    by_cases h : f a = true
    · simp [List.filter_cons, h, ih]
    · simp only [Bool.not_eq_true] at h
      simp [List.filter_cons, h, ih]

/-- Claim C2: terminating a live session always ends with the session's
`debug_port` absent from the port-state map and from the worker-to-port
index (the port is FREE), whatever the kill attempt did — success, timeout
(`killed = false`) or an exception escaping the kill section — because
`_release_port` runs in the `finally` block. -/
theorem terminate_releases_port (st : LState) (wid reason : String)
    (outcome : KillOutcome) (s : Session)
    (hs : lookupKey wid st.sessions = some s) (hp : s.debug_port ≠ 0) :
    lookupKey s.debug_port
        ((terminate_session st wid reason outcome).2.registry.port_state) = none
    ∧ ((terminate_session st wid reason outcome).2.registry.worker_to_port.all
        (fun e => !(decide (e.2 = s.debug_port)))) = true := by
  simp only [terminate_session, hs]
  constructor
  · simp [release_port, hp, lookupKey_eraseKey]
  · simp [release_port, hp, all_of_filter]

def session_w2 : Session :=
  ⟨"w1", "sid1", "r1", "10.0.0.1", 9222, some 4242, 0, 600,
   "/tmp/chrome_profile_p9222", false⟩

def lstate_w2 : LState :=
  { registry :=
      { used_ports := [9222]
        port_state := [(9222, ⟨PortSt.active, "w1", 0⟩)]
        worker_to_port := [("w1", 9222)] }
    sessions := [("w1", session_w2)]
    terminated := [] }

theorem terminate_releases_port_witness :
    lookupKey "w1" lstate_w2.sessions = some session_w2
    ∧ session_w2.debug_port ≠ 0
    ∧ (lookupKey session_w2.debug_port
        ((terminate_session lstate_w2 "w1" "expired" (KillOutcome.normal false)).2.registry.port_state) = none
      ∧ ((terminate_session lstate_w2 "w1" "expired" (KillOutcome.normal false)).2.registry.worker_to_port.all
          (fun e => !(decide (e.2 = session_w2.debug_port)))) = true) :=
  ⟨by decide, by decide,
   terminate_releases_port lstate_w2 "w1" "expired" (KillOutcome.normal false) session_w2
     (by decide) (by decide)⟩

/-- Claim C8: every operation that can append a `TerminatedSession` record
preserves the 50-record bound of the terminated ring.  `terminate_session`
and the found-session branch of `_cleanup_terminated_session` append and
then truncate to the newest 50; the session-not-found branch never appends
because the record construction with `request_id=None` fails pydantic
validation. -/
theorem terminated_ring_bounded (st : LState) (wid reason reason2 : String)
    (outcome : KillOutcome) (exit_code : Option Int)
    (h : st.terminated.length ≤ 50) :
    ((terminate_session st wid reason outcome).2.terminated.length ≤ 50)
    ∧ ((cleanup_terminated_session st wid reason2 exit_code).terminated.length ≤ 50) := by
  constructor
  · cases hlk : lookupKey wid st.sessions with
    | none => simpa [terminate_session, hlk] using h
    | some s =>
      simp only [terminate_session, hlk]
      cases outcome with
      | raisesInTry => simpa using h
      | normal k =>
        cases hmk : mkTerminatedRec s.worker_id (some s.request_id) (some s.machine_ip)
            (some s.debug_port) s.process_id reason none with
        | none => simpa [hmk] using h
        | some tr =>
          simp only [hmk]
          apply trim_le
          simp; omega
  · cases hlk : lookupKey wid st.sessions with
    | none => simpa [cleanup_terminated_session, hlk, mkTerminatedRec] using h
    | some s =>
      simp only [cleanup_terminated_session, hlk]
      cases hmk : mkTerminatedRec s.worker_id (some s.request_id) (some s.machine_ip)
          (some s.debug_port) s.process_id reason2 exit_code with
      | none => simpa [hmk] using h
      | some tr =>
        simp only [hmk]
        apply trim_le
        simp; omega

theorem terminated_ring_bounded_witness :
    lstate_w2.terminated.length ≤ 50
    ∧ ((terminate_session lstate_w2 "w1" "expired" (KillOutcome.normal true)).2.terminated.length ≤ 50
      ∧ ((cleanup_terminated_session lstate_w2 "w1" "crashed" (some 1)).terminated.length ≤ 50)) :=
  ⟨by decide,
   terminated_ring_bounded lstate_w2 "w1" "expired" "crashed"
     (KillOutcome.normal true) (some 1) (by decide)⟩

/-! ## Cleanup pass (`_check_and_cleanup_session`) -/

/-- Python truthiness of `session.process_id` in
`if not session.process_id: return`. -/
def pid_truthy : Option Int → Bool
  | none => false
  | some c => !(decide (c = 0))

/-- Result of polling the session's process object, including the
`asyncio.wait_for` timeout branch that makes the check return early. -/
inductive PollOutcome : Type
  | running
  | exited (code : Int)
  | pollTimeout
deriving DecidableEq, Repr

/-- `_check_chrome_activity` result `(has_pages, has_real_content,
has_websocket)`; any transport or parse failure yields all-false. -/
structure ActivityResult : Type where
  has_pages : Bool
  has_real_content : Bool
  has_websocket : Bool
deriving DecidableEq, Repr

inductive CleanupDecision : Type
  | leaveAlive
  | terminate (reason : String)
deriving DecidableEq, Repr

/-- `_check_and_cleanup_session`, reduced to the decision it takes for one
session.  Times are `Int` seconds; the float comparison
`session_age/60 > hard_ttl_minutes` is the exact `age_seconds > 60*hard_ttl`.
Order in the code: hard-TTL check, expiry check, `process_id` truthiness
guard, process poll (early return on poll timeout), then — only in the
running branch — the activity query, the `has_navigated_away` update and
the 90-second never-used check; the dead branch picks `crashed` for a
non-zero exit code and `closed` for zero. -/
def check_and_cleanup_session (s : Session) (now : Int) (hard_ttl_minutes : Int)
    (outcome : PollOutcome) (act : ActivityResult) : CleanupDecision :=
  let age_seconds := now - s.created_at
  if 60 * hard_ttl_minutes < age_seconds then CleanupDecision.terminate "hard_ttl_exceeded"
  else if s.expires_at < now then CleanupDecision.terminate "expired"
  else if !(pid_truthy s.process_id) then CleanupDecision.leaveAlive
  else
    match outcome with
    | PollOutcome.pollTimeout => CleanupDecision.leaveAlive
    | PollOutcome.running =>
      if !(s.has_navigated_away || act.has_real_content) && decide (90 < age_seconds) then
        CleanupDecision.terminate "never_used"
      else CleanupDecision.leaveAlive
    | PollOutcome.exited c =>
      if !(decide (c = 0)) then CleanupDecision.terminate "crashed"
      else CleanupDecision.terminate "closed"

/-- Modelled from the claim's wording for C4 (the reference cascade the
code is compared against): hard TTL first regardless of activity, then
expiry, then death (`crashed`/`closed` by exit code), then the never-used
window, otherwise leave alive. -/
def cleanup_decision_claim (s : Session) (now : Int) (hard_ttl_minutes : Int)
    (outcome : PollOutcome) (act : ActivityResult) : CleanupDecision :=
  if 60 * hard_ttl_minutes < now - s.created_at then
    CleanupDecision.terminate "hard_ttl_exceeded"
  else if s.expires_at < now then CleanupDecision.terminate "expired"
  else
    match outcome with
    | PollOutcome.exited c =>
      if !(decide (c = 0)) then CleanupDecision.terminate "crashed"
      else CleanupDecision.terminate "closed"
    | _ =>
      if !(s.has_navigated_away || act.has_real_content)
          && decide (90 < now - s.created_at) then
        CleanupDecision.terminate "never_used"
      else CleanupDecision.leaveAlive

/-- Claim C4: for a live session with a usable `process_id` and a process
poll that does not time out, the cleanup pass decides exactly as the
claimed cascade: hard TTL (regardless of activity), then expiry, then
death with `crashed`/`closed` split on the exit code, then the 90-second
never-used reclaim, otherwise the session stays alive. -/
theorem cleanup_check_order (s : Session) (now hard_ttl_minutes : Int)
    (outcome : PollOutcome) (act : ActivityResult)
    (hpid : pid_truthy s.process_id = true)
    (hout : outcome ≠ PollOutcome.pollTimeout) :
    check_and_cleanup_session s now hard_ttl_minutes outcome act
      = cleanup_decision_claim s now hard_ttl_minutes outcome act := by
  cases outcome with
  | pollTimeout => exact absurd rfl hout
  | running => simp [check_and_cleanup_session, cleanup_decision_claim, hpid]
  | exited c => simp [check_and_cleanup_session, cleanup_decision_claim, hpid]

def session_w4 : Session :=
  ⟨"w4", "sid4", "r4", "10.0.0.2", 9223, some 5151, 0, 10000,
   "/tmp/chrome_profile_p9223", false⟩

theorem cleanup_check_order_witness :
    pid_truthy session_w4.process_id = true
    ∧ PollOutcome.running ≠ PollOutcome.pollTimeout
    ∧ check_and_cleanup_session session_w4 100 120 PollOutcome.running ⟨true, false, true⟩
        = cleanup_decision_claim session_w4 100 120 PollOutcome.running ⟨true, false, true⟩ :=
  ⟨by decide, by decide,
   cleanup_check_order session_w4 100 120 PollOutcome.running ⟨true, false, true⟩
     (by decide) (by decide)⟩

/-! ## Claim C10: `ChromeProcessWrapper` polling -/

/-- The wrapper around a delegated-launch Chrome process: `returncode` is
initialised to `None` in `__init__` and only ever written by `_poll_sync`. -/
structure ChromeProcessWrapper : Type where
  returncode : Option Int
deriving DecidableEq, Repr

/-- `ChromeProcessWrapper._poll_sync`: returns `None` while
`chrome_process.is_running()`; on death (or `psutil.NoSuchProcess`, both
modelled by `chrome_running = false`) sets `returncode` to 0 if it was
`None` and returns it. -/
def poll_sync (w : ChromeProcessWrapper) (chrome_running : Bool) :
    Option Int × ChromeProcessWrapper :=
  if chrome_running then (none, w)
  else
    match w.returncode with
    | none => (some 0, ⟨some 0⟩)
    | some c => (some c, w)

def outcome_of_poll : Option Int → PollOutcome
  | none => PollOutcome.running
  | some c => PollOutcome.exited c

theorem not_crashed_running (s : Session) (now hard_ttl_minutes : Int)
    (act : ActivityResult) :
    check_and_cleanup_session s now hard_ttl_minutes PollOutcome.running act
      ≠ CleanupDecision.terminate "crashed" := by
  simp only [check_and_cleanup_session]
  split_ifs <;> simp

theorem not_crashed_exited_zero (s : Session) (now hard_ttl_minutes : Int)
    (act : ActivityResult) :
    check_and_cleanup_session s now hard_ttl_minutes (PollOutcome.exited 0) act
      ≠ CleanupDecision.terminate "crashed" := by
  simp only [check_and_cleanup_session]
  split_ifs <;> simp_all

/-- Claim C10: for a delegated-mode session (process handle is a
`ChromeProcessWrapper`, freshly constructed so `returncode = None`),
`poll` reports exit code 0 whenever the Chrome process is found dead, so
the cleanup pass can never decide `crashed` for it, and whenever it
terminates the session because of process death — the earlier TTL and
expiry gates not firing — the recorded reason is `closed`. -/
theorem delegated_poll_never_crashed (w : ChromeProcessWrapper)
    (chrome_running : Bool) (s : Session) (now hard_ttl_minutes : Int)
    (act : ActivityResult) (hrc : w.returncode = none) :
    ((poll_sync w chrome_running).1 = none ∨ (poll_sync w chrome_running).1 = some 0)
    ∧ (chrome_running = false → (poll_sync w chrome_running).1 = some 0)
    ∧ check_and_cleanup_session s now hard_ttl_minutes
        (outcome_of_poll (poll_sync w chrome_running).1) act
        ≠ CleanupDecision.terminate "crashed"
    ∧ (chrome_running = false →
        pid_truthy s.process_id = true →
        ¬(60 * hard_ttl_minutes < now - s.created_at) →
        ¬(s.expires_at < now) →
        check_and_cleanup_session s now hard_ttl_minutes
          (outcome_of_poll (poll_sync w chrome_running).1) act
          = CleanupDecision.terminate "closed") := by
  cases chrome_running with
  | true =>
    refine ⟨Or.inl rfl, by simp, ?_, by simp⟩
    exact not_crashed_running s now hard_ttl_minutes act
  | false =>
    have hpoll : (poll_sync w false).1 = some 0 := by simp [poll_sync, hrc]
    refine ⟨Or.inr hpoll, fun _ => hpoll, ?_, ?_⟩
    · rw [hpoll]
      exact not_crashed_exited_zero s now hard_ttl_minutes act
    · intro _ hpid hh he
      rw [hpoll]
      show check_and_cleanup_session s now hard_ttl_minutes (PollOutcome.exited 0) act = _
      simp [check_and_cleanup_session, hh, he, hpid]

theorem delegated_poll_never_crashed_witness :
    (⟨none⟩ : ChromeProcessWrapper).returncode = none
    ∧ (((poll_sync ⟨none⟩ false).1 = none ∨ (poll_sync ⟨none⟩ false).1 = some 0)
      ∧ (false = false → (poll_sync ⟨none⟩ false).1 = some 0)
      ∧ check_and_cleanup_session session_w4 100 120
          (outcome_of_poll (poll_sync ⟨none⟩ false).1) ⟨true, false, true⟩
          ≠ CleanupDecision.terminate "crashed"
      ∧ (false = false →
          pid_truthy session_w4.process_id = true →
          ¬(60 * 120 < 100 - session_w4.created_at) →
          ¬(session_w4.expires_at < 100) →
          check_and_cleanup_session session_w4 100 120
            (outcome_of_poll (poll_sync ⟨none⟩ false).1) ⟨true, false, true⟩
            = CleanupDecision.terminate "closed")) :=
  ⟨rfl,
   delegated_poll_never_crashed ⟨none⟩ false session_w4 100 120 ⟨true, false, true⟩ rfl⟩

/-! ## Claim C5: SQS message dispositions (`_process_sqs_message`) -/

/-- Outcome of `json.loads(message["Body"])` followed by the dict check. -/
inductive SqsBody : Type
  | invalidJson
  | nonObject
  | obj (action : Option String) (session_id : Option String)
deriving DecidableEq, Repr

/-- Outcome of `task_handler` (the launch pipeline): a response with the
given status string, or an exception escaping to the outer handler. -/
inductive LaunchOutcome : Type
  | responds (status : String)
  | raisesUnhandled
deriving DecidableEq, Repr

/-- What the handler finally does with the SQS message. -/
inductive Disposition : Type
  | ackDelete
  | setVisibility (seconds : Nat)
deriving DecidableEq, Repr

/-- `_process_sqs_message`, reduced to the message disposition plus the
terminate call it issues (worker id and reason), with the session-store
lookup, the terminate failure mode and the launch outcome as oracles.
Branches in source order: poison / non-dict → delete; `action == "delete"`
with a `session_id` → lookup, then terminate + delete (visibility 10 if
the terminate raised), or visibility 0 when not found, or delete when the
`session_id` is missing; otherwise run the launch and map
`SLOT_FULL → visibility 30`, `FAILED → visibility 10`, anything else →
delete; an unhandled exception → visibility 15. -/
def process_sqs_message (body : SqsBody) (lookup_session : String → Option String)
    (terminate_raises : Bool) (launch : LaunchOutcome) :
    Disposition × Option (String × String) :=
  match body with
  | SqsBody.invalidJson => (Disposition.ackDelete, none)
  | SqsBody.nonObject => (Disposition.ackDelete, none)
  | SqsBody.obj action session_id =>
    if action = some "delete" then
      match session_id with
      | some sid =>
        match lookup_session sid with
        | some wid =>
          if terminate_raises then (Disposition.setVisibility 10, some (wid, "delete_action"))
          else (Disposition.ackDelete, some (wid, "delete_action"))
        | none => (Disposition.setVisibility 0, none)
      | none => (Disposition.ackDelete, none)
    else
      match launch with
      | LaunchOutcome.raisesUnhandled => (Disposition.setVisibility 15, none)
      | LaunchOutcome.responds st =>
        if st = "slot_full" then (Disposition.setVisibility 30, none)
        else if st = "failed" then (Disposition.setVisibility 10, none)
        else (Disposition.ackDelete, none)

/-- Claim C5: the message disposition is a function of the outcome —
completed launch → ack-delete; slot_full → visibility 30 s; failed →
visibility 10 s; unhandled exception → visibility 15 s; unparseable JSON
or a non-object body → ack-delete; delete action whose session is not
found → visibility 0; delete action with a found session → that session
terminated with reason `delete_action` and the message ack-deleted. -/
theorem sqs_message_disposition (lookup_session : String → Option String)
    (tr : Bool) (lo : LaunchOutcome) (action : Option String)
    (ssid : Option String) (sid0 wid : String) :
    process_sqs_message SqsBody.invalidJson lookup_session tr lo
      = (Disposition.ackDelete, none)
    ∧ process_sqs_message SqsBody.nonObject lookup_session tr lo
      = (Disposition.ackDelete, none)
    ∧ (action ≠ some "delete" →
        process_sqs_message (SqsBody.obj action ssid) lookup_session tr
            (LaunchOutcome.responds "completed")
          = (Disposition.ackDelete, none))
    ∧ (action ≠ some "delete" →
        process_sqs_message (SqsBody.obj action ssid) lookup_session tr
            (LaunchOutcome.responds "slot_full")
          = (Disposition.setVisibility 30, none))
    ∧ (action ≠ some "delete" →
        process_sqs_message (SqsBody.obj action ssid) lookup_session tr
            (LaunchOutcome.responds "failed")
          = (Disposition.setVisibility 10, none))
    ∧ (action ≠ some "delete" →
        process_sqs_message (SqsBody.obj action ssid) lookup_session tr
            LaunchOutcome.raisesUnhandled
          = (Disposition.setVisibility 15, none))
    ∧ (lookup_session sid0 = none →
        process_sqs_message (SqsBody.obj (some "delete") (some sid0)) lookup_session tr lo
          = (Disposition.setVisibility 0, none))
    ∧ (lookup_session sid0 = some wid →
        process_sqs_message (SqsBody.obj (some "delete") (some sid0)) lookup_session false lo
          = (Disposition.ackDelete, some (wid, "delete_action"))) := by
  refine ⟨rfl, rfl, ?_, ?_, ?_, ?_, ?_, ?_⟩
  · intro h; simp [process_sqs_message, h]
  · intro h; simp [process_sqs_message, h]
  · intro h; simp [process_sqs_message, h]
  · intro h; simp [process_sqs_message, h]
  · intro h; simp [process_sqs_message, h]
  · intro h; simp [process_sqs_message, h]

theorem sqs_message_disposition_witness :
    ((fun sid => if sid = "s1" then some "w1" else none) "s1" = some "w1")
    ∧ process_sqs_message (SqsBody.obj (some "delete") (some "s1"))
        (fun sid => if sid = "s1" then some "w1" else none) false
        (LaunchOutcome.responds "completed")
      = (Disposition.ackDelete, some ("w1", "delete_action"))
    ∧ ((some "launch" : Option String) ≠ some "delete")
    ∧ process_sqs_message (SqsBody.obj (some "launch") none)
        (fun sid => if sid = "s1" then some "w1" else none) false
        (LaunchOutcome.responds "slot_full")
      = (Disposition.setVisibility 30, none) := by
  have h := sqs_message_disposition
    (fun sid => if sid = "s1" then some "w1" else none) false
    (LaunchOutcome.responds "completed") (some "launch") none "s1" "w1"
  exact ⟨by decide, h.2.2.2.2.2.2.2 (by decide), by decide,
    h.2.2.2.1 (by decide)⟩

/-! ## Claim C7: the `chrome_args` security filter (`_build_chrome_command`) -/

/-- `str.split(sep)` for a one-character separator: always at least one
(possibly empty) chunk. -/
def splitOnChar (sep : Char) : List Char → List (List Char)
  | [] => [[]]
  | c :: rest =>
    let r := splitOnChar sep rest
    if c = sep then [] :: r
    else
      match r with
      | [] => [[c]]
      | chunk :: more => (c :: chunk) :: more

def isPrefixList (needle : List Char) : List Char → Bool
  | [] => needle.isEmpty
  | b :: bs =>
    match needle with
    | [] => true
    | a :: as => a = b && isPrefixList as bs

/-- Substring containment (Python `needle in s`) on character lists. -/
def containsList (needle : List Char) : List Char → Bool
  | [] => needle.isEmpty
  | c :: rest => isPrefixList needle (c :: rest) || containsList needle rest

/-- Substring containment test (Python `needle in s`). -/
def containsSub (needle s : String) : Bool := containsList needle.toList s.toList

def intercalateChar (sep : Char) : List (List Char) → List Char
  | [] => []
  | [x] => x
  | x :: xs => x ++ sep :: intercalateChar sep xs

/-- The hardcoded `dangerous_args` deny set. -/
def dangerous_args : List String :=
  ["--disable-web-security", "--allow-file-access-from-files", "--allow-file-access",
   "--allow-running-insecure-content", "--disable-site-isolation-trials",
   "--no-sandbox", "--disable-setuid-sandbox", "--disable-namespace-sandbox",
   "--disable-seccomp-filter-sandbox", "--allow-sandbox-debugging",
   "--enable-logging", "--log-file", "--enable-dbus", "--remote-debugging-address",
   "--remote-debugging-port", "--user-data-dir", "--crash-dumps-dir", "--homedir",
   "--disk-cache-dir", "--enable-local-file-accesses", "--unlimited-storage",
   "--allow-cross-origin-auth-prompt", "--password-store", "--enable-automation"]

/-- `arg.split("=")[0].lower()`. -/
def arg_name_of (arg : String) : String :=
  ⟨((splitOnChar '=' arg.toList).headD []).map Char.toLower⟩

/-- `arg.split("=", 1)[0]` — the flag key, not lowercased. -/
def arg_key_of (arg : String) : String := ⟨(splitOnChar '=' arg.toList).headD []⟩

/-- `arg.split("=", 1)[1]` — everything after the first `=`. -/
def arg_value_of (arg : String) : String :=
  match splitOnChar '=' arg.toList with
  | [] => ""
  | [_] => ""
  | _ :: rest => ⟨intercalateChar '=' rest⟩

/-- Python `"=" in arg`. -/
def has_eq_sign (arg : String) : Bool := (splitOnChar '=' arg.toList).length > 1

/-- Character class `[a-z0-9\-]` under `re.IGNORECASE` (ASCII). -/
def name_char (c : Char) : Bool := c.isAlphanum || c = '-'

/-- Character class `[a-z0-9\-_\.,:/]` under `re.IGNORECASE` (ASCII). -/
def value_char (c : Char) : Bool :=
  c.isAlphanum || c = '-' || c = '_' || c = '.' || c = ',' || c = ':' || c = '/'

/-- `re.match(r"^--[a-z0-9\-]+(=[a-z0-9\-_\.,:/]+)?$", arg, re.IGNORECASE)`.
Python's `$` also matches just before one trailing newline, so a single
final `\n` is tolerated. -/
def safe_arg_pattern (arg : String) : Bool :=
  let cs :=
    match arg.toList.getLast? with
    | some c => if c = '\n' then arg.toList.dropLast else arg.toList
    | none => arg.toList
  if isPrefixList ['-', '-'] cs then
    match splitOnChar '=' (cs.drop 2) with
    | [name] => !name.isEmpty && name.all name_char
    | [name, value] =>
      !name.isEmpty && name.all name_char && !value.isEmpty && value.all value_char
    | _ => false
  else false

/-- Key substring deny test: `any(path_word in arg_key for path_word in
["dir", "path", "file"])` (case-sensitive). -/
def key_has_path_word (key : String) : Bool :=
  containsSub "dir" key || containsSub "path" key || containsSub "file" key

/-- Value URL deny test: `any(proto in arg_value for proto in
["http://", "https://", "file://", "ftp://"])`. -/
def value_has_url (v : String) : Bool :=
  containsSub "http://" v || containsSub "https://" v
    || containsSub "file://" v || containsSub "ftp://" v

/-- One user-supplied `chrome_args` item survives the security filter in
`_build_chrome_command`: it must start with `--`, its lowercased name must
not be in the dangerous set, it must match the safe pattern, and when it
carries a value its key must not reference dir/path/file and its value
must not contain a URL scheme. -/
def chrome_arg_allowed (arg : String) : Bool :=
  isPrefixList ['-', '-'] arg.toList
    && !(dangerous_args.contains (arg_name_of arg))
    && safe_arg_pattern arg
    && (!(has_eq_sign arg)
        || (!(key_has_path_word (arg_key_of arg)) && !(value_has_url (arg_value_of arg))))

/-- The `safe_args` list built by the filtering loop (non-string items,
absent from this `List String` model, are likewise skipped). -/
def filter_chrome_args (args : List String) : List String :=
  args.filter chrome_arg_allowed

/-- Claim C7 (amended): every user-supplied `chrome_args` item that
reaches the constructed Chrome command line came from the input
unchanged, is not in the hardcoded dangerous set, matches the safe
pattern `^--[a-z0-9\-]+(=[a-z0-9\-_.,:/]+)?$`, and — when it carries a
value — its key contains none of `dir`/`path`/`file` and its value
contains no URL; unsafe items are merely dropped — the filter is total,
so filtering never fails the launch.  The path-word exclusion is NOT
unconditional: the code runs it only inside `if "=" in arg:`, so a
valueless flag whose name references a path passes through. -/
theorem chrome_args_filtered_safe (args : List String) (a : String)
    (ha : a ∈ filter_chrome_args args) :
    a ∈ args
    ∧ dangerous_args.contains (arg_name_of a) = false
    ∧ safe_arg_pattern a = true
    ∧ (has_eq_sign a = true →
        key_has_path_word (arg_key_of a) = false
        ∧ value_has_url (arg_value_of a) = false) := by
  rw [filter_chrome_args, List.mem_filter] at ha
  obtain ⟨hmem, hallow⟩ := ha
  simp only [chrome_arg_allowed, Bool.and_eq_true, Bool.not_eq_true',
    Bool.or_eq_true] at hallow
  obtain ⟨⟨⟨_, hdanger⟩, hpat⟩, hval⟩ := hallow
  refine ⟨hmem, hdanger, hpat, ?_⟩
  intro heq
  rcases hval with h | ⟨h1, h2⟩
  · rw [heq] at h; cases h
  · exact ⟨h1, h2⟩

theorem chrome_args_filtered_safe_witness :
    "--disable-gpu" ∈ filter_chrome_args ["--disable-gpu", "--no-sandbox"]
    ∧ ("--disable-gpu" ∈ ["--disable-gpu", "--no-sandbox"]
      ∧ dangerous_args.contains (arg_name_of "--disable-gpu") = false
      ∧ safe_arg_pattern "--disable-gpu" = true
      ∧ (has_eq_sign "--disable-gpu" = true →
          key_has_path_word (arg_key_of "--disable-gpu") = false
          ∧ value_has_url (arg_value_of "--disable-gpu") = false)) :=
  ⟨by decide,
   chrome_args_filtered_safe ["--disable-gpu", "--no-sandbox"] "--disable-gpu" (by decide)⟩

/-- Claim C7 counterexample: the claim demands that no flag referencing
paths (`dir`/`path`/`file`) reaches the command line, but the code applies
the path-word check only when the arg contains `=`.  The valueless flag
`--mydir` starts with `--`, is not in the dangerous set, matches the safe
pattern and carries no value, so it survives the filter unchanged even
though its name contains `dir` — a path-referencing flag in the
constructed command line. -/
theorem chrome_args_path_flag_passes :
    filter_chrome_args ["--mydir"] = ["--mydir"]
    ∧ containsSub "dir" "--mydir" = true :=
  ⟨by decide, by decide⟩

/-! ## Claim C1: the launch pipeline and its rollback
(`launch_browser_session`, lines 731–1061)

The pipeline is modelled as a pure function of the launcher state plus
oracles: `perm`/`probe` for the reservation scan, `fp` for where (if
anywhere) an exception is raised after the reservation step, and `pid`
for the spawned process id.  Path joining uses `/` uniformly. -/

structure LaunchCfg : Type where
  port_start : Nat
  port_end : Nat
  max_browser_instances : Nat
  hard_ttl_minutes : Int
  machine_ip : String
  public_ip : String
  use_custom_chrome_launcher : Bool
  is_windows : Bool
  launcher_basedir : String
  tmpdir : String
deriving DecidableEq, Repr

structure LaunchRequest : Type where
  id : String
  session_id : Option String
  requester_id : String
  user_data_dir : Option String
  ttl_minutes : Int
deriving DecidableEq, Repr

/-- Where an exception interrupts the pipeline after a successful port
reservation: during the profile-path block (`ValueError` on a supplied
dir, or `os.makedirs` failing on a synthesized one), during the process
spawn (`Popen`/launcher raising, no process handle assigned), at the
immediate-exit check (process spawned but already dead), or during the
DevTools wait (process spawned and still alive).  `ok` is the exception-free
run.  `_activate_reserved_port` and the response construction cannot raise,
so no later fail point exists. -/
inductive FailPoint : Type
  | atProfile
  | atSpawn
  | atImmediateExit
  | atDevtools
  | ok
deriving DecidableEq, Repr

/-- The outward effects of one launch call: the response `status` string
and `debug_port`, whether the except-block terminated a live process, and
whether it attempted the best-effort profile-directory deletion. -/
structure LaunchEffects : Type where
  status : String
  debug_port : Nat
  terminated_process : Bool
  deleted_profile : Bool
deriving DecidableEq, Repr

/-- Ports counted as occupied by the admission gate: state RESERVED or
ACTIVE. -/
def occupied_count (r : Registry) : Nat :=
  (r.port_state.filter
    (fun e => decide (e.2.st = PortSt.reserved ∨ e.2.st = PortSt.active))).length

/-- Profile path synthesized when the request omits `user_data_dir`:
`<launcher_basedir>/p<port>` on Windows with the custom launcher
(falling back to `C:\Chrome-RDP` for an empty or `.` basedir), else
`<tmpdir>/chrome_profile_p<port>`. -/
def synth_profile_dir (cfg : LaunchCfg) (port : Nat) : String :=
  if cfg.is_windows && cfg.use_custom_chrome_launcher then
    (if cfg.launcher_basedir = "" || cfg.launcher_basedir = "." then
      "C:\\Chrome-RDP" else cfg.launcher_basedir) ++ "/p" ++ toString port
  else cfg.tmpdir ++ "/chrome_profile_p" ++ toString port

/-- `"chrome_profile_" in user_data_dir or "Chrome-RDP" in user_data_dir`. -/
def is_temp_profile (dir : String) : Bool :=
  containsSub "chrome_profile_" dir || containsSub "Chrome-RDP" dir

/-- The code never stores a `"FREE"` entry in `_port_state` (absence means
FREE), so reachable registries satisfy this invariant. -/
def no_free_entries (ps : List (Nat × PortEntry)) : Prop :=
  ∀ e ∈ ps, e.2.st ≠ PortSt.free

/-- `launch_browser_session`: port-capacity gate, slot gate, reservation,
profile-path step, spawn, immediate-exit check, DevTools wait, TTL cap,
capacity re-check + session insert, port activation, `completed` response.
Any exception lands in the single except block: roll back the RESERVED
port (skipped when the reservation itself failed, i.e. `reserved_port` is
`None`), drop the session entry if present, terminate the process if it
is still alive, best-effort delete the profile directory when its name
carries a temp marker, and answer `failed`. -/
def launch_browser_session (cfg : LaunchCfg) (st : LState) (wid : String)
    (req : LaunchRequest) (now : Int) (perm : List Nat) (probe : Nat → Bool)
    (fp : FailPoint) (pid : Int) : LState × LaunchEffects :=
  if occupied_count st.registry ≥ cfg.port_end - cfg.port_start + 1 then
    (st, ⟨"slot_full", 0, false, false⟩)
  else if ¬ (st.sessions.length < cfg.max_browser_instances) then
    (st, ⟨"slot_full", 0, false, false⟩)
  else
    match reserve_port_for_worker st.registry wid now perm probe with
    | (none, reg1) =>
      -- the RuntimeError from the reservation is caught by the broad
      -- except: reserved_port is None (no rollback), wid is not in the
      -- session map, no process was spawned, user_data_dir is unset
      ({ st with registry := reg1 }, ⟨"failed", 0, false, false⟩)
    | (some port, reg1) =>
      let udd :=
        match req.user_data_dir with
        | none => synth_profile_dir cfg port
        | some d => d
      let rollback := fun (spawned alive : Bool) =>
        (({ registry := rollback_reserved_port wid port reg1
            sessions := eraseKey wid st.sessions
            terminated := st.terminated } : LState),
         (⟨"failed", 0, spawned && alive, is_temp_profile udd⟩ : LaunchEffects))
      match fp with
      | FailPoint.atProfile => rollback false false
      | FailPoint.atSpawn => rollback false false
      | FailPoint.atImmediateExit => rollback true false
      | FailPoint.atDevtools => rollback true true
      | FailPoint.ok =>
        -- capacity re-check under the session lock; unreachable in this
        -- single-request model but kept from the source (raises, with the
        -- spawned process still alive)
        if st.sessions.length ≥ cfg.max_browser_instances then rollback true true
        else
          let s : Session :=
            { worker_id := wid
              session_id := req.session_id.getD wid
              request_id := req.id
              machine_ip := cfg.machine_ip
              debug_port := port
              process_id := some pid
              created_at := now
              expires_at := session_expires_at now req.ttl_minutes cfg.hard_ttl_minutes
              user_data_dir := udd
              has_navigated_away := false }
          (({ registry := activate_reserved_port wid port now reg1
              sessions := insertKey wid s st.sessions
              terminated := st.terminated } : LState),
           (⟨"completed", port, false, false⟩ : LaunchEffects))

theorem reserve_scan_some (probe : Nat → Bool) (ps : List (Nat × PortEntry))
    (perm : List Nat) (p : Nat) (h : reserve_scan probe ps perm = some p) :
    port_candidate ps p = true ∧ probe p = true := by
  induction perm with
  | nil => cases h
  | cons q rest ih =>
    simp only [reserve_scan] at h
    by_cases hc : (port_candidate ps q && probe q) = true
    · rw [if_pos hc] at h
      injection h with h
      subst h
      simp only [Bool.and_eq_true] at hc
      exact hc
    · rw [if_neg hc] at h
      exact ih h

theorem lookupKey_mem {α β : Type} [DecidableEq α] (k : α) (l : List (α × β)) (v : β)
    (h : lookupKey k l = some v) : (k, v) ∈ l := by
  induction l with
  | nil => cases h
  | cons a rest ih =>
    rcases a with ⟨k', v'⟩
    by_cases hk : k' = k
    · subst hk
      simp [lookupKey] at h
      subst h
      exact List.mem_cons_self _ _
    · simp [lookupKey, hk] at h
      exact List.mem_cons_of_mem _ (ih h)

theorem candidate_lookup_none (ps : List (Nat × PortEntry)) (p : Nat)
    (hnf : ∀ e ∈ ps, e.2.st ≠ PortSt.free)
    (hc : port_candidate ps p = true) : lookupKey p ps = none := by
  cases hlk : lookupKey p ps with
  | none => rfl
  | some e =>
    have hmem := lookupKey_mem p ps e hlk
    rw [port_candidate, hlk] at hc
    simp at hc
    exact absurd hc (hnf (p, e) hmem)

theorem no_free_expire (now : Int) (ps : List (Nat × PortEntry))
    (hnf : no_free_entries ps) : ∀ e ∈ expire_stale now ps, e.2.st ≠ PortSt.free :=
  fun e he => hnf e (List.mem_of_mem_filter he)

theorem eraseKey_insertKey {α β : Type} [DecidableEq α] (k : α) (v : β)
    (l : List (α × β)) : eraseKey k (insertKey k v l) = eraseKey k l := by
  simp only [insertKey, eraseKey, List.filter_cons]
  simp [filter_idem]

theorem lookupKey_insertKey_self {α β : Type} [DecidableEq α] (k : α) (v : β)
    (l : List (α × β)) : lookupKey k (insertKey k v l) = some v := by
  simp [insertKey, lookupKey]

/-- Rolling back the reservation that was just made restores the registry
to its post-expiry form: the fresh RESERVED entry and the fresh worker
binding are removed exactly. -/
theorem rollback_after_reserve (st : LState) (wid : String) (now : Int) (p : Nat)
    (hw2 : lookupKey wid st.registry.worker_to_port = none)
    (hnf : no_free_entries st.registry.port_state)
    (hcand : port_candidate (expire_stale now st.registry.port_state) p = true) :
    rollback_reserved_port wid p
      { st.registry with
          port_state :=
            insertKey p ⟨PortSt.reserved, wid, now⟩ (expire_stale now st.registry.port_state)
          worker_to_port := insertKey wid p st.registry.worker_to_port }
      = { st.registry with port_state := expire_stale now st.registry.port_state } := by
  have h1 : eraseKey p
      (insertKey p (⟨PortSt.reserved, wid, now⟩ : PortEntry)
        (expire_stale now st.registry.port_state))
      = expire_stale now st.registry.port_state := by
    rw [eraseKey_insertKey]
    exact eraseKey_of_lookup_none p _
      (candidate_lookup_none _ p (no_free_expire now _ hnf) hcand)
  have h2 : eraseKey wid (insertKey wid p st.registry.worker_to_port)
      = st.registry.worker_to_port := by
    rw [eraseKey_insertKey]
    exact eraseKey_of_lookup_none wid _ hw2
  simp [rollback_reserved_port, lookupKey_insertKey_self, h1, h2]

/-- Claim C1 (amended): if any exception is raised after a successful port
reservation (profile-path validation, process spawn, immediate-exit
check, or DevTools probing), the launch performs the full rollback and
answers `failed`: the session store and terminated ring are unchanged,
the reservation and its worker binding are removed again, the process is
terminated when it was spawned and still alive — but the port-state map
is left in its post-expiry form, i.e. equal to the pre-request map only
up to the RESERVED entries older than 90 seconds that the reservation
step already removed. -/
theorem launch_failure_rolls_back (cfg : LaunchCfg) (st : LState) (wid : String)
    (req : LaunchRequest) (now : Int) (perm : List Nat) (probe : Nat → Bool)
    (fp : FailPoint) (pid : Int) (p : Nat)
    (hfp : fp ≠ FailPoint.ok)
    (hw1 : lookupKey wid st.sessions = none)
    (hw2 : lookupKey wid st.registry.worker_to_port = none)
    (hnf : no_free_entries st.registry.port_state)
    (hports : ¬ occupied_count st.registry ≥ cfg.port_end - cfg.port_start + 1)
    (hslots : st.sessions.length < cfg.max_browser_instances)
    (hres : reserve_port_for_worker st.registry wid now perm probe
      = (some p,
          { st.registry with
              port_state :=
                insertKey p ⟨PortSt.reserved, wid, now⟩
                  (expire_stale now st.registry.port_state)
              worker_to_port := insertKey wid p st.registry.worker_to_port })) :
    (launch_browser_session cfg st wid req now perm probe fp pid).2.status = "failed"
    ∧ (launch_browser_session cfg st wid req now perm probe fp pid).1.sessions
        = st.sessions
    ∧ (launch_browser_session cfg st wid req now perm probe fp pid).1.terminated
        = st.terminated
    ∧ (launch_browser_session cfg st wid req now perm probe fp pid).1.registry.port_state
        = expire_stale now st.registry.port_state
    ∧ (launch_browser_session cfg st wid req now perm probe fp pid).1.registry.worker_to_port
        = st.registry.worker_to_port
    ∧ (launch_browser_session cfg st wid req now perm probe fp pid).1.registry.used_ports
        = st.registry.used_ports
    ∧ (fp = FailPoint.atDevtools →
        (launch_browser_session cfg st wid req now perm probe fp pid).2.terminated_process
          = true) := by
  -- the reservation must have scanned successfully to port p
  have hscanp : reserve_scan probe (expire_stale now st.registry.port_state) perm
      = some p := by
    have h := hres
    rw [reserve_port_for_worker] at h
    rcases hscan : reserve_scan probe (expire_stale now st.registry.port_state) perm
      with _ | q
    · rw [hscan] at h
      simp at h
    · rw [hscan] at h
      simp only [Prod.mk.injEq, Option.some.injEq] at h
      rw [h.1]
  have hcand := (reserve_scan_some probe _ perm p hscanp).1
  have hroll := rollback_after_reserve st wid now p hw2 hnf hcand
  have hsess := eraseKey_of_lookup_none wid st.sessions hw1
  cases fp with
  | ok => exact absurd rfl hfp
  | atProfile =>
    have heq : launch_browser_session cfg st wid req now perm probe FailPoint.atProfile pid
        = (({ registry :=
                rollback_reserved_port wid p
                  { st.registry with
                      port_state :=
                        insertKey p ⟨PortSt.reserved, wid, now⟩
                          (expire_stale now st.registry.port_state)
                      worker_to_port := insertKey wid p st.registry.worker_to_port }
              sessions := eraseKey wid st.sessions
              terminated := st.terminated } : LState),
           (⟨"failed", 0, false,
             is_temp_profile
               (match req.user_data_dir with
                | none => synth_profile_dir cfg p
                | some d => d)⟩ : LaunchEffects)) := by
      simp [launch_browser_session, hports, hslots, hres]
    rw [heq, hroll]
    exact ⟨rfl, hsess, rfl, rfl, rfl, rfl, fun h => nomatch h⟩
  | atSpawn =>
    have heq : launch_browser_session cfg st wid req now perm probe FailPoint.atSpawn pid
        = (({ registry :=
                rollback_reserved_port wid p
                  { st.registry with
                      port_state :=
                        insertKey p ⟨PortSt.reserved, wid, now⟩
                          (expire_stale now st.registry.port_state)
                      worker_to_port := insertKey wid p st.registry.worker_to_port }
              sessions := eraseKey wid st.sessions
              terminated := st.terminated } : LState),
           (⟨"failed", 0, false,
             is_temp_profile
               (match req.user_data_dir with
                | none => synth_profile_dir cfg p
                | some d => d)⟩ : LaunchEffects)) := by
      simp [launch_browser_session, hports, hslots, hres]
    rw [heq, hroll]
    exact ⟨rfl, hsess, rfl, rfl, rfl, rfl, fun h => nomatch h⟩
  | atImmediateExit =>
    have heq : launch_browser_session cfg st wid req now perm probe
          FailPoint.atImmediateExit pid
        = (({ registry :=
                rollback_reserved_port wid p
                  { st.registry with
                      port_state :=
                        insertKey p ⟨PortSt.reserved, wid, now⟩
                          (expire_stale now st.registry.port_state)
                      worker_to_port := insertKey wid p st.registry.worker_to_port }
              sessions := eraseKey wid st.sessions
              terminated := st.terminated } : LState),
           (⟨"failed", 0, false,
             is_temp_profile
               (match req.user_data_dir with
                | none => synth_profile_dir cfg p
                | some d => d)⟩ : LaunchEffects)) := by
      simp [launch_browser_session, hports, hslots, hres]
    rw [heq, hroll]
    exact ⟨rfl, hsess, rfl, rfl, rfl, rfl, fun h => nomatch h⟩
  | atDevtools =>
    have heq : launch_browser_session cfg st wid req now perm probe
          FailPoint.atDevtools pid
        = (({ registry :=
                rollback_reserved_port wid p
                  { st.registry with
                      port_state :=
                        insertKey p ⟨PortSt.reserved, wid, now⟩
                          (expire_stale now st.registry.port_state)
                      worker_to_port := insertKey wid p st.registry.worker_to_port }
              sessions := eraseKey wid st.sessions
              terminated := st.terminated } : LState),
           (⟨"failed", 0, true,
             is_temp_profile
               (match req.user_data_dir with
                | none => synth_profile_dir cfg p
                | some d => d)⟩ : LaunchEffects)) := by
      simp [launch_browser_session, hports, hslots, hres]
    rw [heq, hroll]
    exact ⟨rfl, hsess, rfl, rfl, rfl, rfl, fun _ => rfl⟩

def cfg_ce : LaunchCfg :=
  { port_start := 9222, port_end := 9223, max_browser_instances := 5
    hard_ttl_minutes := 120, machine_ip := "10.0.0.1", public_ip := "1.2.3.4"
    use_custom_chrome_launcher := false, is_windows := false
    launcher_basedir := "", tmpdir := "/tmp" }

def st_ce : LState :=
  { registry :=
      { used_ports := []
        port_state := [(9222, ⟨PortSt.reserved, "w0", 0⟩)]
        worker_to_port := [("w0", 9222)] }
    sessions := []
    terminated := [] }

def req_ce : LaunchRequest :=
  { id := "r1", session_id := none, requester_id := "u1"
    user_data_dir := none, ttl_minutes := 30 }

/-- Claim C1 counterexample: port range `[9222, 9223]`, a 100-second-old
RESERVED entry for port 9222 held by another worker, a probe that only
reports 9223 free, and a spawn failure.  The launch answers `failed` and
the session store is untouched, but the port registry is NOT in its
pre-request state: the reservation step expired the stale entry for 9222
and the rollback does not restore it. -/
theorem launch_rollback_counterexample :
    (launch_browser_session cfg_ce st_ce "w1" req_ce 100 [9223, 9222]
        (fun q => decide (q = 9223)) FailPoint.atSpawn 7).2.status = "failed"
    ∧ (launch_browser_session cfg_ce st_ce "w1" req_ce 100 [9223, 9222]
        (fun q => decide (q = 9223)) FailPoint.atSpawn 7).1.sessions = st_ce.sessions
    ∧ (launch_browser_session cfg_ce st_ce "w1" req_ce 100 [9223, 9222]
        (fun q => decide (q = 9223)) FailPoint.atSpawn 7).1.registry ≠ st_ce.registry :=
  ⟨by decide, by decide, by decide⟩

theorem launch_failure_rolls_back_witness :
    (FailPoint.atSpawn ≠ FailPoint.ok)
    ∧ lookupKey "w1" st_ce.sessions = none
    ∧ lookupKey "w1" st_ce.registry.worker_to_port = none
    ∧ no_free_entries st_ce.registry.port_state
    ∧ ¬ occupied_count st_ce.registry ≥ cfg_ce.port_end - cfg_ce.port_start + 1
    ∧ st_ce.sessions.length < cfg_ce.max_browser_instances
    ∧ reserve_port_for_worker st_ce.registry "w1" 100 [9223, 9222]
        (fun q => decide (q = 9223))
        = (some 9223,
            { st_ce.registry with
                port_state :=
                  insertKey 9223 ⟨PortSt.reserved, "w1", 100⟩
                    (expire_stale 100 st_ce.registry.port_state)
                worker_to_port := insertKey "w1" 9223 st_ce.registry.worker_to_port })
    ∧ ((launch_browser_session cfg_ce st_ce "w1" req_ce 100 [9223, 9222]
          (fun q => decide (q = 9223)) FailPoint.atSpawn 7).2.status = "failed"
      ∧ (launch_browser_session cfg_ce st_ce "w1" req_ce 100 [9223, 9222]
          (fun q => decide (q = 9223)) FailPoint.atSpawn 7).1.sessions = st_ce.sessions
      ∧ (launch_browser_session cfg_ce st_ce "w1" req_ce 100 [9223, 9222]
          (fun q => decide (q = 9223)) FailPoint.atSpawn 7).1.terminated = st_ce.terminated
      ∧ (launch_browser_session cfg_ce st_ce "w1" req_ce 100 [9223, 9222]
          (fun q => decide (q = 9223)) FailPoint.atSpawn 7).1.registry.port_state
          = expire_stale 100 st_ce.registry.port_state
      ∧ (launch_browser_session cfg_ce st_ce "w1" req_ce 100 [9223, 9222]
          (fun q => decide (q = 9223)) FailPoint.atSpawn 7).1.registry.worker_to_port
          = st_ce.registry.worker_to_port
      ∧ (launch_browser_session cfg_ce st_ce "w1" req_ce 100 [9223, 9222]
          (fun q => decide (q = 9223)) FailPoint.atSpawn 7).1.registry.used_ports
          = st_ce.registry.used_ports
      ∧ (FailPoint.atSpawn = FailPoint.atDevtools →
          (launch_browser_session cfg_ce st_ce "w1" req_ce 100 [9223, 9222]
            (fun q => decide (q = 9223)) FailPoint.atSpawn 7).2.terminated_process = true)) :=
  ⟨by decide, by decide, by decide, by unfold no_free_entries; decide, by decide,
   by decide, by decide,
   launch_failure_rolls_back cfg_ce st_ce "w1" req_ce 100 [9223, 9222]
     (fun q => decide (q = 9223)) FailPoint.atSpawn 7 9223
     (by decide) (by decide) (by decide) (by unfold no_free_entries; decide)
     (by decide) (by decide) (by decide)⟩

end BAL
